import Mathlib

/-!
Verification development for the strategy module of a bar-level
trading-decision system (source: `src/strategies.py`).

The module is embedded shallowly:

* Prices, indicator values, volumes and times-of-day are rationals (`ℚ`).
* A pandas `DataFrame` of OHLC bars becomes a `List Bar`; the optional
  `volume` column becomes a separate `List ℚ` (empty list = absent,
  matching `df.get('volume', pd.Series(dtype=float))`).
* The indicator computations `calculate_ema` / `calculate_atr` live in a
  separate module that is outside this core (the spec treats them as an
  external Indicator Provider); `decide` is therefore parameterised over
  two arbitrary functions `emaFn`, `atrFn` returning the trailing
  (`.iloc[-1]`) value of each indicator series.  All theorems hold for
  every choice of these functions.
* A pandas negative-index read `s.iloc[-k]` raises `IndexError` when the
  series is shorter than `k`; such reads are embedded as `Option`-valued
  accesses, and a `decide` call that would raise returns `none` in its
  decision component.  The mutation of the trailing flag at line 110 of
  the source happens before the fallible `iloc[-2]` read at line 116, so
  `decide` returns the post-state flag even on the failing paths.
* Python float literals (`0.1`, `1.5`, …) are embedded as the exact
  rationals they denote in the source text.
-/

namespace Strat

/-- One OHLC bar of the market snapshot.  `tod` is the time-of-day
component of the bar's timestamp (the only part of the index the source
reads, via `timestamp.time()` in `in_session`); the `open` column is
never read by the strategies and is omitted. -/
structure Bar where
  tod : ℚ
  high : ℚ
  low : ℚ
  close : ℚ
deriving DecidableEq, Repr

/-- The rolling OHLCV window passed to each decision call: the bars plus
the optional volume column (`volume = []` encodes an absent column, as in
`df.get('volume', pd.Series(dtype=float))`). -/
structure Snapshot where
  bars : List Bar
  volume : List ℚ
deriving DecidableEq, Repr

/-- The three possible values of the `action` field of a decision. -/
inductive Action where
  | buy
  | sell
  | hold
deriving DecidableEq, Repr

/-- The decision record returned by every strategy (`action`, `comment`,
`sl_offset`, `tp_offset` keys of the Python result dict). -/
structure Decision where
  action : Action
  comment : String
  sl_offset : Option ℚ
  tp_offset : Option ℚ
deriving DecidableEq, Repr

/-- Configuration of `SafeStrategy.__init__` (lines 31-49 of the source);
session bounds are times of day.  Immutable after construction. -/
structure SafeConfig where
  ema_period : ℕ
  atr_period : ℕ
  stop_mult : ℚ
  target_mult : ℚ
  buffer_mult : ℚ
  volume_mult : ℚ
  session_start : ℚ
  session_end : ℚ
deriving DecidableEq, Repr

/-- The close-price series `df['close']` of a snapshot. -/
def closesOf (snap : Snapshot) : List ℚ :=
  snap.bars.map Bar.close

/-- Embedding of the pandas read `s.iloc[-k]`: defined exactly when the
series has at least `k` elements, `none` (an `IndexError` in Python)
otherwise. -/
def ilocNeg (l : List ℚ) (k : ℕ) : Option ℚ :=
  if k ≤ l.length then l.get? (l.length - k) else none

/-- Embedding of `vol.rolling(p).mean().iloc[-1]` restricted to the cases
the source distinguishes: `none` stands for an undefined trailing average
(window larger than the series, or a degenerate window), which in pandas
is a `NaN` that is truthy but compares `False` against everything, hence
observationally identical to the skipped (`none`) case in the guard
`if avg_vol and vol.iloc[-1] < avg_vol * self.volume_mult`. -/
def rollingMeanLast (vol : List ℚ) (p : ℕ) : Option ℚ :=
  if p = 0 ∨ vol.length < p then none
  else some ((vol.drop (vol.length - p)).sum / (p : ℚ))

/-- The volume-spike guard of line 85,
`avg_vol and vol.iloc[-1] < avg_vol * self.volume_mult`, where `avg_vol`
is `None` for an empty column (line 82) and Python truthiness makes a
zero average skip the filter. -/
def volumeRejects (vol : List ℚ) (p : ℕ) (m : ℚ) : Bool :=
  match (if vol.isEmpty then none else rollingMeanLast vol p), vol.getLast? with
  | some a, some v => if a ≠ 0 ∧ v < a * m then true else false
  | _, _ => false

namespace SafeStrategy

/-- `SafeStrategy.NAME` (line 29). -/
def NAME : String := "Safe (Low-Risk) Trend-Following Scalper"

/-- Initial value of the trailing-stop flag set by `__init__`
(line 51). -/
def initTrailing : Bool := false

/-- The `_hold` helper (lines 57-63): a hold decision carrying the
strategy name and the rejection reason, with both offsets null. -/
def holdResult (reason : String) : Decision :=
  { action := Action.hold
    comment := NAME ++ ": " ++ reason
    sl_offset := none
    tp_offset := none }

/-- The `in_session` predicate (lines 53-55): inclusive session-window
test on the time-of-day of a timestamp. -/
def in_session (cfg : SafeConfig) (t : ℚ) : Prop :=
  cfg.session_start ≤ t ∧ t ≤ cfg.session_end

instance (cfg : SafeConfig) (t : ℚ) : Decidable (in_session cfg t) :=
  inferInstanceAs (Decidable (_ ∧ _))

/-- Decimal rendering of a rational to five places, embedding the
`f"{price:.5f}"` interpolation of the trade comments (lines 96 and 99).
Only the comment text depends on it, never a numeric output. -/
def fmt5 (x : ℚ) : String :=
  let n : ℤ := round (x * 100000)
  let a : ℕ := n.natAbs
  let fracDigits : String := toString (a % 100000)
  let padded : String :=
    String.mk (List.replicate (5 - fracDigits.length) '0') ++ fracDigits
  (if n < 0 then "-" else "") ++ toString (a / 100000) ++ "." ++ padded

/-- Embedding of `SafeStrategy.decide` (lines 65-127).  The mutable
field `self.trailing_activated` is passed in as `trailing` and returned
as the second component; the first component is the decision, or `none`
when the Python code would raise an `IndexError` on a negative-index
read (`df.index[-1]` on an empty frame, or `close.iloc[-2]` in the
trailing-tightening branch with fewer than two bars). -/
def decide (emaFn : List ℚ → ℕ → ℚ) (atrFn : List Bar → ℕ → ℚ)
    (cfg : SafeConfig) (trailing : Bool) (data : Option Snapshot) :
    Option Decision × Bool :=
  match data with
  | none => (some (holdResult "insufficient data"), trailing)
  | some snap =>
    if snap.bars.length < max cfg.ema_period cfg.atr_period then
      (some (holdResult "insufficient data"), trailing)
    else
      match snap.bars.getLast? with
      | none => (none, trailing)
      | some lastBar =>
        if ¬ in_session cfg lastBar.tod then
          (some (holdResult "outside trading session"), trailing)
        else
          let closes := closesOf snap
          let ema := emaFn closes cfg.ema_period
          let atr := atrFn snap.bars cfg.atr_period
          let price := lastBar.close
          if volumeRejects snap.volume cfg.atr_period cfg.volume_mult then
            (some (holdResult "low volume"), trailing)
          else
            let buffer := atr * cfg.buffer_mult
            if |price - ema| < buffer then
              (some (holdResult "within buffer zone"), trailing)
            else
              let action := if ema < price then Action.buy else Action.sell
              let baseComment :=
                if ema < price then
                  "price " ++ fmt5 price ++ " above EMA" ++
                    toString cfg.ema_period ++ " + buffer"
                else
                  "price " ++ fmt5 price ++ " below EMA" ++
                    toString cfg.ema_period ++ " - buffer"
              let sl := atr * cfg.stop_mult
              let tp := atr * cfg.target_mult
              let activates : Bool :=
                if ¬ trailing ∧
                    ((action = Action.buy ∧ ema + 2 * buffer < price) ∨
                     (action = Action.sell ∧ price < ema - 2 * buffer)) then
                  true
                else false
              let trailingNew := trailing || activates
              let comment :=
                if activates then baseComment ++ "; trailing stop activated"
                else baseComment
              if trailingNew then
                match ilocNeg closes 2 with
                | none => (none, trailingNew)
                | some prev_close =>
                  let breakeven_offset := atr * (1 / 10)
                  let slTight :=
                    if action = Action.buy then
                      min sl (price - (prev_close + breakeven_offset))
                    else
                      min sl ((prev_close - breakeven_offset) - price)
                  (some { action := action
                          comment := NAME ++ ": " ++ comment
                          sl_offset := some slTight
                          tp_offset := some tp }, trailingNew)
              else
                (some { action := action
                        comment := NAME ++ ": " ++ comment
                        sl_offset := some sl
                        tp_offset := some tp }, trailingNew)

/-- Folding `decide` over a sequence of decision calls, threading the
trailing-stop flag exactly as the mutable instance field is threaded
between calls on one `SafeStrategy` object. -/
def run (emaFn : List ℚ → ℕ → ℚ) (atrFn : List Bar → ℕ → ℚ)
    (cfg : SafeConfig) (trailing : Bool) : List (Option Snapshot) → Bool
  | [] => trailing
  | d :: ds => run emaFn atrFn cfg (SafeStrategy.decide emaFn atrFn cfg trailing d).2 ds

end SafeStrategy

namespace ModerateStrategy

/-- `ModerateStrategy.NAME` (line 130). -/
def NAME : String := "Moderate Trend-Following Scalper"

/-- Fixed `ema_period` set by `__init__` (line 132). -/
def ema_period : ℕ := 20

/-- Fixed `atr_period` set by `__init__` (line 133). -/
def atr_period : ℕ := 14

/-- Fixed `stop_multiplier` set by `__init__` (line 134). -/
def stop_multiplier : ℚ := 3 / 2

/-- Fixed `target_multiplier` set by `__init__` (line 135). -/
def target_multiplier : ℚ := 1

/-- Embedding of `ModerateStrategy.decide` (lines 137-157): stateless
single-pass threshold evaluation against the EMA. -/
def decide (emaFn : List ℚ → ℕ → ℚ) (atrFn : List Bar → ℕ → ℚ)
    (data : Option Snapshot) : Option Decision :=
  match data with
  | none => some ⟨Action.hold, NAME ++ ": insufficient data", none, none⟩
  | some snap =>
    if snap.bars.length < ema_period then
      some ⟨Action.hold, NAME ++ ": insufficient data", none, none⟩
    else
      match (closesOf snap).getLast? with
      | none => none
      | some price =>
        let ema := emaFn (closesOf snap) ema_period
        let atr := atrFn snap.bars atr_period
        if ema < price then
          some ⟨Action.buy, NAME ++ ": bullish trend detected",
            some (atr * stop_multiplier), some (atr * target_multiplier)⟩
        else if price < ema then
          some ⟨Action.sell, NAME ++ ": bearish trend detected",
            some (atr * stop_multiplier), some (atr * target_multiplier)⟩
        else
          some ⟨Action.hold, NAME ++ ": no clear trend", none, none⟩

end ModerateStrategy

namespace AggressiveStrategy

/-- `AggressiveStrategy.NAME` (line 160). -/
def NAME : String := "Aggressive Trend-Following Scalper"

/-- Fixed `ema_period` set by `__init__` (line 162). -/
def ema_period : ℕ := 10

/-- Fixed `atr_period` set by `__init__` (line 163). -/
def atr_period : ℕ := 7

/-- Fixed `stop_multiplier` set by `__init__` (line 164). -/
def stop_multiplier : ℚ := 2

/-- Fixed `target_multiplier` set by `__init__` (line 165). -/
def target_multiplier : ℚ := 3 / 2

/-- Embedding of `AggressiveStrategy.decide` (lines 167-187). -/
def decide (emaFn : List ℚ → ℕ → ℚ) (atrFn : List Bar → ℕ → ℚ)
    (data : Option Snapshot) : Option Decision :=
  match data with
  | none => some ⟨Action.hold, NAME ++ ": insufficient data", none, none⟩
  | some snap =>
    if snap.bars.length < ema_period then
      some ⟨Action.hold, NAME ++ ": insufficient data", none, none⟩
    else
      match (closesOf snap).getLast? with
      | none => none
      | some price =>
        let ema := emaFn (closesOf snap) ema_period
        let atr := atrFn snap.bars atr_period
        if ema < price then
          some ⟨Action.buy, NAME ++ ": going long aggressively",
            some (atr * stop_multiplier), some (atr * target_multiplier)⟩
        else if price < ema then
          some ⟨Action.sell, NAME ++ ": going short aggressively",
            some (atr * stop_multiplier), some (atr * target_multiplier)⟩
        else
          some ⟨Action.hold, NAME ++ ": awaiting breakout", none, none⟩

end AggressiveStrategy

namespace MomentumStrategy

/-- `MomentumStrategy.NAME` (line 190). -/
def NAME : String := "Momentum Fade Scalper"

/-- Fixed `ema_period` set by `__init__` (line 192). -/
def ema_period : ℕ := 20

/-- Fixed `atr_period` set by `__init__` (line 193). -/
def atr_period : ℕ := 14

/-- Fixed `fade_threshold` set by `__init__` (line 194), in ATR
multiples. -/
def fade_threshold : ℚ := 3 / 2

/-- Fixed `stop_multiplier` set by `__init__` (line 195). -/
def stop_multiplier : ℚ := 1

/-- Fixed `target_multiplier` set by `__init__` (line 196). -/
def target_multiplier : ℚ := 3 / 2

/-- Embedding of `MomentumStrategy.decide` (lines 198-219): fades
overextensions beyond `fade_threshold` ATR multiples from the EMA. -/
def decide (emaFn : List ℚ → ℕ → ℚ) (atrFn : List Bar → ℕ → ℚ)
    (data : Option Snapshot) : Option Decision :=
  match data with
  | none => some ⟨Action.hold, NAME ++ ": insufficient data", none, none⟩
  | some snap =>
    if snap.bars.length < ema_period then
      some ⟨Action.hold, NAME ++ ": insufficient data", none, none⟩
    else
      match (closesOf snap).getLast? with
      | none => none
      | some price =>
        let ema := emaFn (closesOf snap) ema_period
        let atr := atrFn snap.bars atr_period
        let diff := price - ema
        if atr * fade_threshold < diff then
          some ⟨Action.sell, NAME ++ ": fading overextension",
            some (atr * stop_multiplier), some (atr * target_multiplier)⟩
        else if diff < -(atr * fade_threshold) then
          some ⟨Action.buy, NAME ++ ": fading downside spike",
            some (atr * stop_multiplier), some (atr * target_multiplier)⟩
        else
          some ⟨Action.hold, NAME ++ ": no fade opportunity", none, none⟩

end MomentumStrategy

namespace MeanReversionStrategy

/-- `MeanReversionStrategy.NAME` (line 222). -/
def NAME : String := "Mean-Reversion Scalper"

/-- Fixed `ema_period` set by `__init__` (line 224). -/
def ema_period : ℕ := 20

/-- Fixed `atr_period` set by `__init__` (line 225). -/
def atr_period : ℕ := 14

/-- Fixed `band_multiplier` set by `__init__` (line 226), in ATR
multiples. -/
def band_multiplier : ℚ := 2

/-- Fixed `stop_multiplier` set by `__init__` (line 227). -/
def stop_multiplier : ℚ := 1

/-- Fixed `target_multiplier` set by `__init__` (line 228). -/
def target_multiplier : ℚ := 2

/-- Embedding of `MeanReversionStrategy.decide` (lines 230-252): fades
prices outside the `EMA ± ATR × band_multiplier` band. -/
def decide (emaFn : List ℚ → ℕ → ℚ) (atrFn : List Bar → ℕ → ℚ)
    (data : Option Snapshot) : Option Decision :=
  match data with
  | none => some ⟨Action.hold, NAME ++ ": insufficient data", none, none⟩
  | some snap =>
    if snap.bars.length < ema_period then
      some ⟨Action.hold, NAME ++ ": insufficient data", none, none⟩
    else
      match (closesOf snap).getLast? with
      | none => none
      | some price =>
        let ema := emaFn (closesOf snap) ema_period
        let atr := atrFn snap.bars atr_period
        let upper := ema + atr * band_multiplier
        let lower := ema - atr * band_multiplier
        if upper < price then
          some ⟨Action.sell, NAME ++ ": price above upper band",
            some (atr * stop_multiplier), some (atr * target_multiplier)⟩
        else if price < lower then
          some ⟨Action.buy, NAME ++ ": price below lower band",
            some (atr * stop_multiplier), some (atr * target_multiplier)⟩
        else
          some ⟨Action.hold, NAME ++ ": within bands", none, none⟩

end MeanReversionStrategy

/-!
Concrete inputs used by witnesses and counterexamples.
-/

/-- A constant indicator function whose trailing EMA value is `100`. -/
def emaW : List ℚ → ℕ → ℚ := fun _ _ => 100

/-- A constant indicator function whose trailing ATR value is `2`. -/
def atrW : List Bar → ℕ → ℚ := fun _ _ => 2

/-- A small concrete configuration: periods `2`/`2`, the default Safe
multipliers (`stop 1.0`, `target 0.5`, `buffer 0.2`, `volume 1.5`) and a
session window containing time-of-day `50`. -/
def cfgW : SafeConfig :=
  { ema_period := 2
    atr_period := 2
    stop_mult := 1
    target_mult := 1 / 2
    buffer_mult := 1 / 5
    volume_mult := 3 / 2
    session_start := 0
    session_end := 100 }

/-- A bar at time-of-day `50` with the given close (high and low set to
the close as well; no theorem depends on them since the ATR function is
universally quantified). -/
def barW (c : ℚ) : Bar := { tod := 50, high := c, low := c, close := c }

/-- Two-bar snapshot, previous close `98`, latest close `101`, no volume
column. -/
def snapW : Snapshot := { bars := [barW 98, barW 101], volume := [] }

/-- Two-bar snapshot, previous close `101`, latest close `101`, no volume
column. -/
def snapX : Snapshot := { bars := [barW 101, barW 101], volume := [] }

/-!
Helper lemmas.
-/

/-- The four rejection reasons produce four pairwise distinct hold
decisions; distinctness of the two used in branch analyses. -/
theorem holdResult_ne_session :
    SafeStrategy.holdResult "insufficient data" ≠
      SafeStrategy.holdResult "outside trading session" := by
  decide

theorem holdResult_ne_volume :
    SafeStrategy.holdResult "insufficient data" ≠
      SafeStrategy.holdResult "low volume" := by
  decide

theorem holdResult_ne_buffer :
    SafeStrategy.holdResult "insufficient data" ≠
      SafeStrategy.holdResult "within buffer zone" := by
  decide

/-- On a call whose prior trailing flag is `true`, the returned flag is
again `true` in every branch of `decide`. -/
theorem SafeStrategy.decide_snd_of_true (emaFn : List ℚ → ℕ → ℚ)
    (atrFn : List Bar → ℕ → ℚ) (cfg : SafeConfig) (d : Option Snapshot) :
    (SafeStrategy.decide emaFn atrFn cfg true d).2 = true := by
  unfold SafeStrategy.decide
  cases d with
  | none => rfl
  | some snap =>
    repeat' first | rfl | (dsimp only) | split

/-- C2 -- The trailing-stop flag starts `false` and is a one-way latch:
from a `true` state, any single call and any sequence of further calls
leave it `true`. -/
theorem C2_trailing_latch :
    SafeStrategy.initTrailing = false ∧
      (∀ (emaFn : List ℚ → ℕ → ℚ) (atrFn : List Bar → ℕ → ℚ)
        (cfg : SafeConfig) (d : Option Snapshot),
        (SafeStrategy.decide emaFn atrFn cfg true d).2 = true) ∧
      (∀ (emaFn : List ℚ → ℕ → ℚ) (atrFn : List Bar → ℕ → ℚ)
        (cfg : SafeConfig) (ds : List (Option Snapshot)),
        SafeStrategy.run emaFn atrFn cfg true ds = true) := by
  refine ⟨rfl, fun emaFn atrFn cfg d => SafeStrategy.decide_snd_of_true .., ?_⟩
  intro emaFn atrFn cfg ds
  induction ds with
  | nil => rfl
  | cons d ds ih =>
    rw [SafeStrategy.run, SafeStrategy.decide_snd_of_true]
    exact ih

/-- C7 -- A call that returns a hold decision leaves the instance state
unchanged: the trailing flag keeps its prior value.  (The configuration
is immutable by construction in this embedding: `decide` receives `cfg`
as a pure value and returns no configuration, mirroring that the source
never assigns to any configuration attribute inside `decide`.) -/
theorem C7_hold_leaves_state_unchanged (emaFn : List ℚ → ℕ → ℚ)
    (atrFn : List Bar → ℕ → ℚ) (cfg : SafeConfig) (st : Bool)
    (data : Option Snapshot) (d : Decision) :
    (SafeStrategy.decide emaFn atrFn cfg st data).1 = some d →
    d.action = Action.hold →
    (SafeStrategy.decide emaFn atrFn cfg st data).2 = st := by
  unfold SafeStrategy.decide
  cases data with
  | none => intro _ _; rfl
  | some snap =>
    repeat' first | (dsimp only) | split
    all_goals intro h1 h2
    all_goals first
      | rfl
      | exact Option.noConfusion h1
      | (simp only [Option.some.injEq] at h1; subst h1; simp at h2)

/-- Closed instance of the frame property: an insufficient-data hold on
a `true` latch keeps the latch at `true`. -/
theorem C7_hold_leaves_state_unchanged_witness :
    (SafeStrategy.decide emaW atrW cfgW true none).2 = true :=
  C7_hold_leaves_state_unchanged emaW atrW cfgW true none
    (SafeStrategy.holdResult "insufficient data") rfl rfl

/-- C4 -- The call yields the "insufficient data" hold exactly when the
snapshot is absent or has strictly fewer bars than
`max(ema_period, atr_period)`. -/
theorem C4_insufficient_data_iff (emaFn : List ℚ → ℕ → ℚ)
    (atrFn : List Bar → ℕ → ℚ) (cfg : SafeConfig) (st : Bool)
    (data : Option Snapshot) :
    (SafeStrategy.decide emaFn atrFn cfg st data).1 =
        some (SafeStrategy.holdResult "insufficient data") ↔
      (data = none ∨ ∃ snap, data = some snap ∧
        snap.bars.length < max cfg.ema_period cfg.atr_period) := by
  cases data with
  | none => simp [SafeStrategy.decide]
  | some snap =>
    by_cases hlen : snap.bars.length < max cfg.ema_period cfg.atr_period
    · unfold SafeStrategy.decide
      dsimp only
      rw [if_pos hlen]
      exact iff_of_true rfl (Or.inr ⟨snap, rfl, hlen⟩)
    · unfold SafeStrategy.decide
      dsimp only
      rw [if_neg hlen]
      apply iff_of_false
      · repeat' first | (dsimp only) | split
        all_goals
          simp [SafeStrategy.holdResult, SafeStrategy.NAME, Decision.mk.injEq]
      · rintro (hc | ⟨snap2, hs, hlt⟩)
        · exact Option.noConfusion hc
        · injection hs with hs
          subst hs
          exact hlen hlt

/-- Closed instance of the data-sufficiency boundary: an absent snapshot
is rejected as insufficient data. -/
theorem C4_insufficient_data_iff_witness :
    (SafeStrategy.decide emaW atrW cfgW false none).1 =
      some (SafeStrategy.holdResult "insufficient data") :=
  (C4_insufficient_data_iff emaW atrW cfgW false none).mpr (Or.inl rfl)

/-- Characterisation of the volume-spike guard: it fires exactly when
the volume column is present, its trailing rolling average is defined
and non-zero, and the latest volume is strictly below
`average × volume_mult`. -/
theorem volumeRejects_iff (vol : List ℚ) (p : ℕ) (m : ℚ) :
    volumeRejects vol p m = true ↔
      (vol ≠ [] ∧ ∃ a, rollingMeanLast vol p = some a ∧ a ≠ 0 ∧
        ∃ v, vol.getLast? = some v ∧ v < a * m) := by
  unfold volumeRejects
  by_cases hv : vol.isEmpty
  · rw [if_pos hv]
    simp [List.isEmpty_iff.mp hv]
  · rw [if_neg hv]
    have hvne : vol ≠ [] := by
      intro hnil; rw [hnil] at hv; exact hv rfl
    cases hm : rollingMeanLast vol p with
    | none => simp [hm]
    | some a =>
      cases hl : vol.getLast? with
      | none =>
        rw [List.getLast?_eq_none_iff.mp hl] at hvne
        exact absurd rfl hvne
      | some v =>
        dsimp only
        constructor
        · intro h
          split_ifs at h with hc
          exact ⟨hvne, a, rfl, hc.1, v, rfl, hc.2⟩
        · rintro ⟨-, a2, ha2, hne, v2, hv2, hlt⟩
          injection ha2 with ha2
          injection hv2 with hv2
          subst ha2; subst hv2
          rw [if_pos ⟨hne, hlt⟩]

/-- C5 -- On a call that reaches the buffer-zone filter (snapshot
present and long enough, last bar in session, volume filter silent),
the result is the "within buffer zone" hold exactly when
`|price − EMA| < ATR × buffer_mult`, with strict inequality. -/
theorem C5_buffer_zone_iff (emaFn : List ℚ → ℕ → ℚ)
    (atrFn : List Bar → ℕ → ℚ) (cfg : SafeConfig) (st : Bool)
    (snap : Snapshot) (lb : Bar)
    (h1 : ¬ snap.bars.length < max cfg.ema_period cfg.atr_period)
    (h2 : snap.bars.getLast? = some lb)
    (h3 : SafeStrategy.in_session cfg lb.tod)
    (h4 : volumeRejects snap.volume cfg.atr_period cfg.volume_mult = false) :
    ((SafeStrategy.decide emaFn atrFn cfg st (some snap)).1 =
        some (SafeStrategy.holdResult "within buffer zone")) ↔
      |lb.close - emaFn (closesOf snap) cfg.ema_period| <
        atrFn snap.bars cfg.atr_period * cfg.buffer_mult := by
  unfold SafeStrategy.decide
  try dsimp only
  rw [if_neg h1, h2]
  try dsimp only
  rw [if_neg (not_not_intro h3)]
  try dsimp only
  rw [h4]
  simp only [Bool.false_eq_true, if_false]
  by_cases hbuf : |lb.close - emaFn (closesOf snap) cfg.ema_period| <
      atrFn snap.bars cfg.atr_period * cfg.buffer_mult
  · rw [if_pos hbuf]
    exact iff_of_true rfl hbuf
  · rw [if_neg hbuf]
    apply iff_of_false _ hbuf
    repeat' first | (dsimp only) | split
    all_goals simp [SafeStrategy.holdResult, SafeStrategy.NAME, Decision.mk.injEq]

/-- Closed instance of the buffer-zone characterisation on the witness
snapshot (price `101`, EMA `100`, ATR `2`, buffer multiplier `0.2`). -/
theorem C5_buffer_zone_iff_witness :
    ((SafeStrategy.decide emaW atrW cfgW false (some snapW)).1 =
        some (SafeStrategy.holdResult "within buffer zone")) ↔
      |(barW 101).close - emaW (closesOf snapW) cfgW.ema_period| <
        atrW snapW.bars cfgW.atr_period * cfgW.buffer_mult :=
  C5_buffer_zone_iff emaW atrW cfgW false snapW (barW 101)
    (by decide) rfl (by decide) rfl

/-- C6 -- On a call that reaches the volume-spike filter, the result is
the "low volume" hold exactly when the volume column is non-empty, its
rolling average is defined and non-zero, and the latest volume is
strictly below `average × volume_mult`; in particular an empty column,
an undefined or zero average, or a latest volume exactly at the
threshold never trigger it. -/
theorem C6_volume_filter_iff (emaFn : List ℚ → ℕ → ℚ)
    (atrFn : List Bar → ℕ → ℚ) (cfg : SafeConfig) (st : Bool)
    (snap : Snapshot) (lb : Bar)
    (h1 : ¬ snap.bars.length < max cfg.ema_period cfg.atr_period)
    (h2 : snap.bars.getLast? = some lb)
    (h3 : SafeStrategy.in_session cfg lb.tod) :
    ((SafeStrategy.decide emaFn atrFn cfg st (some snap)).1 =
        some (SafeStrategy.holdResult "low volume")) ↔
      (snap.volume ≠ [] ∧ ∃ a, rollingMeanLast snap.volume cfg.atr_period = some a ∧
        a ≠ 0 ∧ ∃ v, snap.volume.getLast? = some v ∧ v < a * cfg.volume_mult) := by
  unfold SafeStrategy.decide
  try dsimp only
  rw [if_neg h1, h2]
  try dsimp only
  rw [if_neg (not_not_intro h3)]
  try dsimp only
  by_cases hrej : volumeRejects snap.volume cfg.atr_period cfg.volume_mult = true
  · rw [if_pos hrej]
    exact iff_of_true rfl ((volumeRejects_iff _ _ _).mp hrej)
  · rw [if_neg hrej]
    apply iff_of_false
    · repeat' first | (dsimp only) | split
      all_goals simp [SafeStrategy.holdResult, SafeStrategy.NAME, Decision.mk.injEq]
    · exact fun hc => hrej ((volumeRejects_iff _ _ _).mpr hc)

/-- Closed instance of the volume-filter characterisation on the
witness snapshot, whose volume column is absent. -/
theorem C6_volume_filter_iff_witness :
    ((SafeStrategy.decide emaW atrW cfgW false (some snapW)).1 =
        some (SafeStrategy.holdResult "low volume")) ↔
      (snapW.volume ≠ [] ∧ ∃ a, rollingMeanLast snapW.volume cfgW.atr_period = some a ∧
        a ≠ 0 ∧ ∃ v, snapW.volume.getLast? = some v ∧ v < a * cfgW.volume_mult) :=
  C6_volume_filter_iff emaW atrW cfgW false snapW (barW 101)
    (by decide) rfl (by decide)

/-- C8 -- When `max(ema_period, atr_period) ≥ 2`, every call is total:
the data-sufficiency filter guarantees at least two bars on any path
that reads the last bar or the second-to-last close, so the embedded
`IndexError` branches (`none` results) are unreachable. -/
theorem C8_no_index_error (emaFn : List ℚ → ℕ → ℚ)
    (atrFn : List Bar → ℕ → ℚ) (cfg : SafeConfig) (st : Bool)
    (data : Option Snapshot)
    (h : 2 ≤ max cfg.ema_period cfg.atr_period) :
    (SafeStrategy.decide emaFn atrFn cfg st data).1 ≠ none := by
  cases data with
  | none => simp [SafeStrategy.decide]
  | some snap =>
    unfold SafeStrategy.decide
    dsimp only
    by_cases hlen : snap.bars.length < max cfg.ema_period cfg.atr_period
    · rw [if_pos hlen]; simp
    · rw [if_neg hlen]
      have hlen2 : 2 ≤ snap.bars.length := by omega
      obtain ⟨lb, hlb⟩ : ∃ lb, snap.bars.getLast? = some lb := by
        cases hgl : snap.bars.getLast? with
        | none =>
          rw [List.getLast?_eq_none_iff.mp hgl] at hlen2
          exact absurd hlen2 (by simp)
        | some lb => exact ⟨lb, rfl⟩
      have hprev : ∃ q, ilocNeg (closesOf snap) 2 = some q := by
        have hcl : (closesOf snap).length = snap.bars.length :=
          List.length_map snap.bars Bar.close
        unfold ilocNeg
        rw [if_pos (by rw [hcl]; exact hlen2)]
        cases hq : (closesOf snap).get? ((closesOf snap).length - 2) with
        | none =>
          have := List.get?_eq_none.mp hq
          rw [hcl] at this
          omega
        | some q => exact ⟨q, rfl⟩
      obtain ⟨q, hq⟩ := hprev
      simp only [hlb, hq]
      repeat' first | (dsimp only) | split
      all_goals simp_all

/-- Closed instance of totality: the two-bar witness snapshot with
periods `2`/`2` produces a decision, not an error. -/
theorem C8_no_index_error_witness :
    (SafeStrategy.decide emaW atrW cfgW false (some snapW)).1 ≠ none :=
  C8_no_index_error emaW atrW cfgW false (some snapW) (by norm_num [cfgW])

/-- C1 -- For every strategy and every returned decision, the action is
`hold` exactly when both offsets are null, and `buy`/`sell` exactly when
both offsets are non-null. -/
theorem C1_action_iff_offsets :
    (∀ (emaFn : List ℚ → ℕ → ℚ) (atrFn : List Bar → ℕ → ℚ)
        (cfg : SafeConfig) (st : Bool) (data : Option Snapshot)
        (d : Decision) (st2 : Bool),
        SafeStrategy.decide emaFn atrFn cfg st data = (some d, st2) →
        ((d.action = Action.hold ↔ d.sl_offset = none ∧ d.tp_offset = none) ∧
          ((d.action = Action.buy ∨ d.action = Action.sell) ↔
            d.sl_offset ≠ none ∧ d.tp_offset ≠ none))) ∧
    (∀ (emaFn : List ℚ → ℕ → ℚ) (atrFn : List Bar → ℕ → ℚ)
        (data : Option Snapshot) (d : Decision),
        ModerateStrategy.decide emaFn atrFn data = some d →
        ((d.action = Action.hold ↔ d.sl_offset = none ∧ d.tp_offset = none) ∧
          ((d.action = Action.buy ∨ d.action = Action.sell) ↔
            d.sl_offset ≠ none ∧ d.tp_offset ≠ none))) ∧
    (∀ (emaFn : List ℚ → ℕ → ℚ) (atrFn : List Bar → ℕ → ℚ)
        (data : Option Snapshot) (d : Decision),
        AggressiveStrategy.decide emaFn atrFn data = some d →
        ((d.action = Action.hold ↔ d.sl_offset = none ∧ d.tp_offset = none) ∧
          ((d.action = Action.buy ∨ d.action = Action.sell) ↔
            d.sl_offset ≠ none ∧ d.tp_offset ≠ none))) ∧
    (∀ (emaFn : List ℚ → ℕ → ℚ) (atrFn : List Bar → ℕ → ℚ)
        (data : Option Snapshot) (d : Decision),
        MomentumStrategy.decide emaFn atrFn data = some d →
        ((d.action = Action.hold ↔ d.sl_offset = none ∧ d.tp_offset = none) ∧
          ((d.action = Action.buy ∨ d.action = Action.sell) ↔
            d.sl_offset ≠ none ∧ d.tp_offset ≠ none))) ∧
    (∀ (emaFn : List ℚ → ℕ → ℚ) (atrFn : List Bar → ℕ → ℚ)
        (data : Option Snapshot) (d : Decision),
        MeanReversionStrategy.decide emaFn atrFn data = some d →
        ((d.action = Action.hold ↔ d.sl_offset = none ∧ d.tp_offset = none) ∧
          ((d.action = Action.buy ∨ d.action = Action.sell) ↔
            d.sl_offset ≠ none ∧ d.tp_offset ≠ none))) := by
  refine ⟨?_, ?_, ?_, ?_, ?_⟩
  · intro emaFn atrFn cfg st data d st2 h
    have h1 : (SafeStrategy.decide emaFn atrFn cfg st data).1 = some d := by
      rw [h]
    clear h
    cases data with
    | none => injection h1 with h1; subst h1; simp [SafeStrategy.holdResult]
    | some snap =>
      unfold SafeStrategy.decide at h1
      repeat' first | (dsimp only at h1) | split at h1
      all_goals first
        | exact Option.noConfusion h1
        | (injection h1 with h1; subst h1; simp [SafeStrategy.holdResult])
  · intro emaFn atrFn data d h
    cases data with
    | none => injection h with h; subst h; simp
    | some snap =>
      unfold ModerateStrategy.decide at h
      repeat' first | (dsimp only at h) | split at h
      all_goals first
        | exact Option.noConfusion h
        | (injection h with h; subst h; simp)
  · intro emaFn atrFn data d h
    cases data with
    | none => injection h with h; subst h; simp
    | some snap =>
      unfold AggressiveStrategy.decide at h
      repeat' first | (dsimp only at h) | split at h
      all_goals first
        | exact Option.noConfusion h
        | (injection h with h; subst h; simp)
  · intro emaFn atrFn data d h
    cases data with
    | none => injection h with h; subst h; simp
    | some snap =>
      unfold MomentumStrategy.decide at h
      repeat' first | (dsimp only at h) | split at h
      all_goals first
        | exact Option.noConfusion h
        | (injection h with h; subst h; simp)
  · intro emaFn atrFn data d h
    cases data with
    | none => injection h with h; subst h; simp
    | some snap =>
      unfold MeanReversionStrategy.decide at h
      repeat' first | (dsimp only at h) | split at h
      all_goals first
        | exact Option.noConfusion h
        | (injection h with h; subst h; simp)

/-- Closed instance of the action/offset invariant: the Safe strategy
on an absent snapshot returns a hold with both offsets null, satisfying
both equivalences. -/
theorem C1_action_iff_offsets_witness :
    (((SafeStrategy.holdResult "insufficient data").action = Action.hold ↔
        (SafeStrategy.holdResult "insufficient data").sl_offset = none ∧
          (SafeStrategy.holdResult "insufficient data").tp_offset = none) ∧
      (((SafeStrategy.holdResult "insufficient data").action = Action.buy ∨
          (SafeStrategy.holdResult "insufficient data").action = Action.sell) ↔
        (SafeStrategy.holdResult "insufficient data").sl_offset ≠ none ∧
          (SafeStrategy.holdResult "insufficient data").tp_offset ≠ none)) :=
  C1_action_iff_offsets.1 emaW atrW cfgW false none
    (SafeStrategy.holdResult "insufficient data") false rfl

/-- C3 -- On a call where every filter passes (hypotheses `h1`-`h5`),
the second-to-last close is readable, and the trailing flag is true
after the activation check (`hpost`, the post-state of the call), the
stop offset is tightened to
`min(ATR × stop_mult, price − (prev_close + ATR × 0.1))` for a buy and
`min(ATR × stop_mult, (prev_close − ATR × 0.1) − price)` for a sell,
while the target offset stays `ATR × target_mult`. -/
theorem C3_trailing_tightening (emaFn : List ℚ → ℕ → ℚ) (atrFn : List Bar → ℕ → ℚ)
    (cfg : SafeConfig) (st : Bool) (snap : Snapshot) (lb : Bar) (prev : ℚ)
    (h1 : ¬ snap.bars.length < max cfg.ema_period cfg.atr_period)
    (h2 : snap.bars.getLast? = some lb)
    (h3 : SafeStrategy.in_session cfg lb.tod)
    (h4 : volumeRejects snap.volume cfg.atr_period cfg.volume_mult = false)
    (h5 : ¬ |lb.close - emaFn (closesOf snap) cfg.ema_period| <
      atrFn snap.bars cfg.atr_period * cfg.buffer_mult)
    (hprev : ilocNeg (closesOf snap) 2 = some prev)
    (hpost : (SafeStrategy.decide emaFn atrFn cfg st (some snap)).2 = true) :
    ((SafeStrategy.decide emaFn atrFn cfg st (some snap)).1.map Decision.action =
        some Action.buy →
      (SafeStrategy.decide emaFn atrFn cfg st (some snap)).1.map Decision.sl_offset =
        some (some (min (atrFn snap.bars cfg.atr_period * cfg.stop_mult)
          (lb.close - (prev + atrFn snap.bars cfg.atr_period * (1 / 10)))))) ∧
    ((SafeStrategy.decide emaFn atrFn cfg st (some snap)).1.map Decision.action =
        some Action.sell →
      (SafeStrategy.decide emaFn atrFn cfg st (some snap)).1.map Decision.sl_offset =
        some (some (min (atrFn snap.bars cfg.atr_period * cfg.stop_mult)
          ((prev - atrFn snap.bars cfg.atr_period * (1 / 10)) - lb.close)))) ∧
    (SafeStrategy.decide emaFn atrFn cfg st (some snap)).1.map Decision.tp_offset =
      some (some (atrFn snap.bars cfg.atr_period * cfg.target_mult)) := by
  unfold SafeStrategy.decide at hpost ⊢
  try dsimp only at hpost ⊢
  rw [if_neg h1, h2] at hpost ⊢
  try dsimp only at hpost ⊢
  rw [if_neg (not_not_intro h3)] at hpost ⊢
  try dsimp only at hpost ⊢
  rw [h4] at hpost ⊢
  simp only [Bool.false_eq_true, if_false] at hpost ⊢
  rw [if_neg h5] at hpost ⊢
  by_cases hdir : emaFn (closesOf snap) cfg.ema_period < lb.close
  · simp only [if_pos hdir] at hpost ⊢
    cases st with
    | true =>
      simp only [Bool.not_true, false_and, if_false, Bool.true_or,
        if_pos rfl, hprev] at hpost ⊢
      refine ⟨fun _ => rfl, fun habs => absurd habs (by simp), rfl⟩
    | false =>
      by_cases hbey : emaFn (closesOf snap) cfg.ema_period +
          2 * (atrFn snap.bars cfg.atr_period * cfg.buffer_mult) < lb.close
      · simp only [Bool.not_false, true_and, hbey, and_true, eq_self_iff_true,
          true_and, true_or, if_true, Bool.false_or, if_pos rfl, hprev] at hpost ⊢
        refine ⟨fun _ => rfl, fun habs => absurd habs (by simp), rfl⟩
      · simp only [Bool.not_false, true_and, eq_self_iff_true, true_and,
          hbey, false_and, or_false, false_or, and_false, if_false,
          Bool.false_or] at hpost
        exact absurd hpost (by simp)
  · simp only [if_neg hdir] at hpost ⊢
    cases st with
    | true =>
      simp only [Bool.not_true, false_and, if_false, Bool.true_or,
        if_pos rfl, hprev] at hpost ⊢
      refine ⟨fun habs => absurd habs (by simp), fun _ => rfl, rfl⟩
    | false =>
      by_cases hbey : lb.close < emaFn (closesOf snap) cfg.ema_period -
          2 * (atrFn snap.bars cfg.atr_period * cfg.buffer_mult)
      · simp only [Bool.not_false, true_and, hbey, and_true, eq_self_iff_true,
          true_and, or_true, if_true, Bool.false_or, if_pos rfl, hprev] at hpost ⊢
        refine ⟨fun habs => absurd habs (by simp), fun _ => rfl, rfl⟩
      · simp only [Bool.not_false, true_and, eq_self_iff_true, true_and,
          hbey, false_and, and_false, or_false, false_or, if_false,
          Bool.false_or] at hpost
        exact absurd hpost (by simp)

/-- Closed instance of the tightening rule on the witness snapshot with
the latch already armed: previous close `98`, price `101`, ATR `2`. -/
theorem C3_trailing_tightening_witness :
    ((SafeStrategy.decide emaW atrW cfgW true (some snapW)).1.map Decision.action =
        some Action.buy →
      (SafeStrategy.decide emaW atrW cfgW true (some snapW)).1.map Decision.sl_offset =
        some (some (min (atrW snapW.bars cfgW.atr_period * cfgW.stop_mult)
          ((barW 101).close - (98 + atrW snapW.bars cfgW.atr_period * (1 / 10)))))) ∧
    ((SafeStrategy.decide emaW atrW cfgW true (some snapW)).1.map Decision.action =
        some Action.sell →
      (SafeStrategy.decide emaW atrW cfgW true (some snapW)).1.map Decision.sl_offset =
        some (some (min (atrW snapW.bars cfgW.atr_period * cfgW.stop_mult)
          ((98 - atrW snapW.bars cfgW.atr_period * (1 / 10)) - (barW 101).close)))) ∧
    (SafeStrategy.decide emaW atrW cfgW true (some snapW)).1.map Decision.tp_offset =
      some (some (atrW snapW.bars cfgW.atr_period * cfgW.target_mult)) :=
  C3_trailing_tightening emaW atrW cfgW true snapW (barW 101) 98
    (by decide) rfl (by decide) rfl
    (by norm_num [barW, emaW, atrW, cfgW]) rfl
    (SafeStrategy.decide_snd_of_true emaW atrW cfgW (some snapW))

/-- C9 -- There is an input (here: latch already armed, previous close
equal to the current price `101`, EMA `100`, ATR `2`) on which `decide`
returns a buy with a strictly negative `sl_offset`, passed through
as-is rather than converted to an error or a hold. -/
theorem C9_negative_sl_offset :
    ∃ (emaFn : List ℚ → ℕ → ℚ) (atrFn : List Bar → ℕ → ℚ) (cfg : SafeConfig)
      (st : Bool) (snap : Snapshot) (q : ℚ),
      ((SafeStrategy.decide emaFn atrFn cfg st (some snap)).1.map Decision.action =
          some Action.buy ∨
        (SafeStrategy.decide emaFn atrFn cfg st (some snap)).1.map Decision.action =
          some Action.sell) ∧
      (SafeStrategy.decide emaFn atrFn cfg st (some snap)).1.map Decision.sl_offset =
        some (some q) ∧ q < 0 := by
  refine ⟨emaW, atrW, cfgW, true, snapX, -(1 / 5), Or.inl ?_, ?_, by norm_num⟩
  · norm_num [SafeStrategy.decide, emaW, atrW, cfgW, snapX, barW, closesOf,
      ilocNeg, volumeRejects, rollingMeanLast, SafeStrategy.in_session, min_def]
  · norm_num [SafeStrategy.decide, emaW, atrW, cfgW, snapX, barW, closesOf,
      ilocNeg, volumeRejects, rollingMeanLast, SafeStrategy.in_session, min_def]

/-- C10 counterexample -- A concrete input satisfying every premise of
the scenario claim (trailing flag initially false, multipliers
`1`/`0.5`/`0.2`, filters passing, EMA `100`, ATR `2`, price `101`) on
which `decide` returns a buy whose `sl_offset` is `-0.2`, not the
claimed `2.0`: the same call activates the trailing stop, so the
tightening `min(2, 101 - (prev_close + 0.2))` applies with
`prev_close = 101`. -/
theorem C10_scenario_counterexample :
    emaW (closesOf snapX) cfgW.ema_period = 100 ∧
    atrW snapX.bars cfgW.atr_period = 2 ∧
    (closesOf snapX).getLast? = some 101 ∧
    cfgW.stop_mult = 1 ∧ cfgW.target_mult = 1 / 2 ∧ cfgW.buffer_mult = 1 / 5 ∧
    (¬ snapX.bars.length < max cfgW.ema_period cfgW.atr_period) ∧
    snapX.bars.getLast? = some (barW 101) ∧
    SafeStrategy.in_session cfgW (barW 101).tod ∧
    volumeRejects snapX.volume cfgW.atr_period cfgW.volume_mult = false ∧
    (SafeStrategy.decide emaW atrW cfgW false (some snapX)).1.map Decision.action =
      some Action.buy ∧
    (SafeStrategy.decide emaW atrW cfgW false (some snapX)).1.map Decision.sl_offset =
      some (some (-(1 / 5))) ∧
    ¬ (SafeStrategy.decide emaW atrW cfgW false (some snapX)).1.map Decision.sl_offset =
      some (some 2) := by
  refine ⟨rfl, rfl, rfl, rfl, rfl, rfl, by decide, rfl, by decide, rfl, ?_, ?_, ?_⟩
  · norm_num [SafeStrategy.decide, emaW, atrW, cfgW, snapX, barW, closesOf,
      ilocNeg, volumeRejects, rollingMeanLast, SafeStrategy.in_session, min_def]
  · norm_num [SafeStrategy.decide, emaW, atrW, cfgW, snapX, barW, closesOf,
      ilocNeg, volumeRejects, rollingMeanLast, SafeStrategy.in_session, min_def]
  · norm_num [SafeStrategy.decide, emaW, atrW, cfgW, snapX, barW, closesOf,
      ilocNeg, volumeRejects, rollingMeanLast, SafeStrategy.in_session, min_def]

/-- C10 amended -- In the scenario (trailing flag initially false,
`stop_mult 1`, `target_mult 0.5`, `buffer_mult 0.2`, filters passing,
EMA `100`, ATR `2`, price `101`, second-to-last close readable), the
call returns a buy whose comment contains "trailing stop activated",
with `tp_offset = 1.0`, post-state `true`, and
`sl_offset = min(2.0, 101 - (prev_close + 0.2))` - which is `2.0`
exactly when `prev_close ≤ 98.8`, since the very call that activates
the trailing stop already applies the tightening. -/
theorem C10_scenario_amended (emaFn : List ℚ → ℕ → ℚ) (atrFn : List Bar → ℕ → ℚ)
    (cfg : SafeConfig) (snap : Snapshot) (lb : Bar) (prev : ℚ)
    (hstop : cfg.stop_mult = 1) (htarget : cfg.target_mult = 1 / 2)
    (hbufm : cfg.buffer_mult = 1 / 5)
    (hema : emaFn (closesOf snap) cfg.ema_period = 100)
    (hatr : atrFn snap.bars cfg.atr_period = 2)
    (h1 : ¬ snap.bars.length < max cfg.ema_period cfg.atr_period)
    (h2 : snap.bars.getLast? = some lb)
    (hprice : lb.close = 101)
    (h3 : SafeStrategy.in_session cfg lb.tod)
    (h4 : volumeRejects snap.volume cfg.atr_period cfg.volume_mult = false)
    (hprev : ilocNeg (closesOf snap) 2 = some prev) :
    (SafeStrategy.decide emaFn atrFn cfg false (some snap)).1.map Decision.action =
      some Action.buy ∧
    (SafeStrategy.decide emaFn atrFn cfg false (some snap)).1.map Decision.sl_offset =
      some (some (min 2 (101 - (prev + 1 / 5)))) ∧
    (SafeStrategy.decide emaFn atrFn cfg false (some snap)).1.map Decision.tp_offset =
      some (some 1) ∧
    (∃ a b, (SafeStrategy.decide emaFn atrFn cfg false (some snap)).1.map Decision.comment =
      some (a ++ "trailing stop activated" ++ b)) ∧
    (SafeStrategy.decide emaFn atrFn cfg false (some snap)).2 = true := by
  unfold SafeStrategy.decide
  try dsimp only
  rw [if_neg h1, h2]
  try dsimp only
  rw [if_neg (not_not_intro h3)]
  try dsimp only
  rw [h4]
  simp only [Bool.false_eq_true, if_false]
  rw [hema, hatr, hbufm, hstop, htarget, hprice]
  rw [if_neg (show ¬ |(101 : ℚ) - 100| < 2 * (1 / 5) by norm_num)]
  simp only [if_pos (show (100 : ℚ) < 101 by norm_num)]
  have hbs : (Action.buy = Action.sell) = False := by simp
  simp only [Bool.not_false, Bool.false_eq_true, not_false_iff, true_and,
    eq_self_iff_true, hbs, false_and, or_false]
  rw [if_pos (show (100 : ℚ) + 2 * (2 * (1 / 5)) < 101 by norm_num)]
  simp only [Bool.false_or, if_pos rfl, hprev]
  try simp only [Option.map_some]
  try simp only [Option.map_some']
  refine ⟨rfl, ?_, ?_, ?_, rfl⟩
  · norm_num
  · norm_num
  · refine ⟨SafeStrategy.NAME ++ ": " ++
      ("price " ++ SafeStrategy.fmt5 101 ++ " above EMA" ++
        toString cfg.ema_period ++ " + buffer" ++ "; "), "", ?_⟩
    simp only [String.append_empty, String.append_assoc]
    rfl

/-- Closed instance of the amended scenario on the witness snapshot
(previous close `98`, so the tightened stop is still `2.0`). -/
theorem C10_scenario_amended_witness :
    (SafeStrategy.decide emaW atrW cfgW false (some snapW)).1.map Decision.action =
      some Action.buy ∧
    (SafeStrategy.decide emaW atrW cfgW false (some snapW)).1.map Decision.sl_offset =
      some (some (min 2 (101 - (98 + 1 / 5)))) ∧
    (SafeStrategy.decide emaW atrW cfgW false (some snapW)).1.map Decision.tp_offset =
      some (some 1) ∧
    (∃ a b, (SafeStrategy.decide emaW atrW cfgW false (some snapW)).1.map Decision.comment =
      some (a ++ "trailing stop activated" ++ b)) ∧
    (SafeStrategy.decide emaW atrW cfgW false (some snapW)).2 = true :=
  C10_scenario_amended emaW atrW cfgW snapW (barW 101) 98
    rfl rfl rfl rfl rfl (by decide) rfl rfl (by decide) rfl rfl

end Strat
